import Mathlib

/-!
Verification of the Stern Insider Connected integration
(custom_components/stern_insider_connected) against its specification.

The API client and coordinator are shallowly embedded: JSON values become an
inductive type, Python dict lookups become partial operations that surface
AttributeError on non-dict receivers, and the client's HTTP layer is
abstracted into explicit parameters (response status, extracted cookie token,
parsed authenticated flag, transport failure) so that the pure control flow of
api.py and coordinator.py is modelled faithfully.
-/

set_option autoImplicit false

namespace Stern

/-- A JSON value as delivered by the upstream API (and as manipulated by the
Python code: dicts, lists, strings, numbers, booleans, None). -/
inductive JValue where
  | jnull
  | jbool (b : Bool)
  | jnum (n : Int)
  | jstr (s : String)
  | jlist (xs : List JValue)
  | jobj (fields : List (String × JValue))

/-- Errors a Python expression can raise while parsing a response:
calling .get on a non-dict raises AttributeError; calling a constructor with
unexpected keyword arguments, or iterating a non-iterable, raises TypeError. -/
inductive PyErr where
  | attributeError
  | typeError
  deriving DecidableEq, Repr

namespace JValue

/-- Python truthiness of a JSON value (bool(v)). -/
def truthy : JValue → Bool
  | jnull => false
  | jbool b => b
  | jnum n => n != 0
  | jstr s => !s.isEmpty
  | jlist xs => !xs.isEmpty
  | jobj fs => !fs.isEmpty

/-- Python `a or b` on JSON values. -/
def pyOr (a b : JValue) : JValue := if a.truthy then a else b

/-- Python `d.get(key, default)`: only defined on dicts; on any other value
the attribute access raises AttributeError. Keys of a parsed JSON object are
unique, so first-match lookup coincides with dict lookup. -/
def get (v : JValue) (key : String) (dflt : JValue) : Except PyErr JValue :=
  match v with
  | jobj fields => .ok ((fields.lookup key).getD dflt)
  | _ => .error .attributeError

/-- Python `for item in v`: lists iterate their elements; a non-empty string
or dict would iterate but its elements then fail the body's first .get with
AttributeError; everything else raises TypeError. -/
def asPyList : JValue → Except PyErr (List JValue)
  | jlist xs => .ok xs
  | jstr s => if s.isEmpty then .ok [] else .error .attributeError
  | jobj fs => if fs.isEmpty then .ok [] else .error .attributeError
  | _ => .error .typeError

end JValue

mutual
/-- Python repr() of a JSON value (used by str() on containers). -/
def pyRepr : JValue → String
  | .jnull => "None"
  | .jbool true => "True"
  | .jbool false => "False"
  | .jnum n => toString n
  | .jstr s => "'" ++ s ++ "'"
  | .jlist xs => "[" ++ pyReprList xs ++ "]"
  | .jobj fs => "\x7b" ++ pyReprObj fs ++ "\x7d"

/-- Comma-separated reprs of list elements. -/
def pyReprList : List JValue → String
  | [] => ""
  | [x] => pyRepr x
  | x :: xs => pyRepr x ++ ", " ++ pyReprList xs

/-- Comma-separated reprs of dict entries. -/
def pyReprObj : List (String × JValue) → String
  | [] => ""
  | [(k, v)] => "'" ++ k ++ "': " ++ pyRepr v
  | (k, v) :: fs => "'" ++ k ++ "': " ++ pyRepr v ++ ", " ++ pyReprObj fs
end

/-- Python str() of a JSON value. -/
def pyStr : JValue → String
  | .jstr s => s
  | v => pyRepr v

/-- Python str.isdigit: true for a non-empty all-digit string. -/
def pyIsDigit (s : String) : Bool := !s.isEmpty && s.data.all Char.isDigit

/-- Decimal value of a digit list, most significant first. -/
def digitsToNat : List Char → Nat → Nat
  | [], acc => acc
  | c :: cs, acc => digitsToNat cs (acc * 10 + (c.toNat - 48))

/-- Python int(s) for an all-digit string (the only case the code reaches). -/
def pyIntOfDigits (s : String) : Int := (digitsToNat s.data 0 : Int)

/-- The score normalisation in get_high_scores: a string score is converted
with int() when it is all digits, else replaced by 0; non-strings pass
through unchanged. -/
def normalizeScore : JValue → JValue
  | .jstr s => .jnum (if pyIsDigit s then pyIntOfDigits s else 0)
  | v => v

/-- models.HighScore. The player fields are annotated str in models.py but
dataclass annotations are unchecked, so the raw JSON values flow through;
score_id and rank are always built from the enumeration index in api.py. -/
structure HighScore where
  score_id : String
  rank : Int
  score : JValue
  player_name : JValue
  player_username : JValue
  player_initials : JValue
  avatar_url : JValue

/-- models.Machine, exactly the fields the dataclass declares. -/
structure Machine where
  machine_id : String
  name : JValue
  game_title : JValue
  image_url : JValue
  high_scores : List HighScore

/-- The keyword arguments api.get_machines passes to the Machine constructor. -/
def machineCtorKwargs : List String :=
  ["machine_id", "name", "game_title", "image_url", "square_logo_url",
   "variable_width_logo_url", "backglass_image_url", "background_image_url",
   "gradient_start", "gradient_stop"]

/-- The fields the models.Machine dataclass declares (its __init__ keywords,
high_scores defaulted). -/
def machineFields : List String :=
  ["machine_id", "name", "game_title", "image_url", "high_scores"]

/-- The body of get_machines's per-item loop. Python first evaluates every
constructor argument (the .get chains below), then performs the call
Machine(machine_id=..., ..., gradient_stop=...); the dataclass __init__
accepts only machineFields, so the call raises TypeError whenever some
passed keyword is not a declared field. -/
def mkMachine (item : JValue) : Except PyErr Machine := do
  let model ← item.get "model" (.jobj [])
  let title ← model.get "title" (.jobj [])
  let game_title ← title.get "name" (.jstr "Unknown")
  let idv ← item.get "id" (.jstr "")
  let dbi ← title.get "default_backglass_image" .jnull
  let sq ← title.get "square_logo" .jnull
  let _vw ← title.get "variable_width_logo" .jnull
  let _bg ← title.get "primary_background" .jnull
  let _gs ← title.get "gradient_start" .jnull
  let _ge ← title.get "gradient_stop" .jnull
  if machineCtorKwargs.all (fun k => machineFields.contains k) then
    .ok { machine_id := pyStr idv, name := game_title, game_title := game_title,
          image_url := dbi.pyOr sq, high_scores := [] }
  else
    .error .typeError

/-- The loop of get_machines over the machines list. -/
def machinesLoop : List JValue → Except PyErr (List Machine)
  | [] => .ok []
  | item :: rest => do
      let m ← mkMachine item
      let tl ← machinesLoop rest
      .ok (m :: tl)

/-- api.SternInsiderConnectedAPI.get_machines, applied to the parsed JSON
body of the machines response. Mirrors:
user_data = data.get("user", \x7b\x7d);
machines_list = user_data.get("machines", data.get("machines", [])). -/
def get_machines (data : JValue) : Except PyErr (List Machine) := do
  let user_data ← data.get "user" (.jobj [])
  let inner ← data.get "machines" (.jlist [])
  let machines_list ← user_data.get "machines" inner
  let items ← machines_list.asPyList
  machinesLoop items

/-- The body of get_high_scores's per-item loop at enumeration index idx. -/
def mkHighScore (idx : Nat) (item : JValue) : Except PyErr HighScore := do
  let user ← item.get "user" (.jobj [])
  let score_value ← item.get "score" (.jstr "0")
  let player_name ← user.get "username" (.jstr "Unknown")
  let player_username ← user.get "username" (.jstr "")
  let player_initials ← user.get "initials" (.jstr "???")
  let avatar ← user.get "avatar_url" .jnull
  .ok { score_id := toString ((idx : Int) + 1), rank := (idx : Int) + 1,
        score := normalizeScore score_value,
        player_name := player_name, player_username := player_username,
        player_initials := player_initials, avatar_url := avatar.pyOr .jnull }

/-- The enumerate loop of get_high_scores, carrying the running index. -/
def hsLoop : Nat → List JValue → Except PyErr (List HighScore)
  | _, [] => .ok []
  | idx, item :: rest => do
      let hs ← mkHighScore idx item
      let tl ← hsLoop (idx + 1) rest
      .ok (hs :: tl)

/-- api.SternInsiderConnectedAPI.get_high_scores, applied to the parsed JSON
body: reads the singular high_score key, builds one HighScore per entry with
rank idx+1 and score_id str(idx+1), and returns the first five. -/
def get_high_scores (data : JValue) : Except PyErr (List HighScore) := do
  let scores_list ← data.get "high_score" (.jlist [])
  let items ← scores_list.asPyList
  let hs ← hsLoop 0 items
  .ok (hs.take 5)

/-! ## Authentication and token lifecycle (api.py) -/

/-- The exceptions the client raises: SternAuthenticationError and
SternConnectionError (both subclasses of SternAPIError). -/
inductive SternErr where
  | authError (msg : String)
  | connError (msg : String)
  deriving DecidableEq, Repr

/-- The client's token state: _access_token and _token_expiry. Time is
modelled as an integer number of seconds; all constants involved (1800, 300)
are exactly representable, so nothing is lost against Python's float
time.time(). -/
structure ClientState where
  access_token : Option String
  token_expiry : Int
  deriving DecidableEq, Repr

/-- const.TOKEN_EXPIRY_BUFFER. -/
def TOKEN_EXPIRY_BUFFER : Int := 300

/-- Python truthiness of _access_token (None and the empty string are falsy). -/
def tokenTruthy : Option String → Bool
  | none => false
  | some s => !s.isEmpty

/-- api._is_token_valid: False when no (truthy) token is stored, else
time.time() < _token_expiry - TOKEN_EXPIRY_BUFFER. -/
def is_token_valid (access_token : Option String) (token_expiry now : Int) : Bool :=
  if !tokenTruthy access_token then false
  else decide (now < token_expiry - TOKEN_EXPIRY_BUFFER)

/-- api._do_authenticate, abstracted over the HTTP exchange: connFail is a
transport-level aiohttp.ClientError, status the response status, token the
token extracted from the Set-Cookie headers (None when absent), authenticated
the flag parsed from the response body. Returns the raised-or-returned
outcome together with the client state after the call (Python leaves the
fields untouched on every failure path). -/
def do_authenticate (connFail : Bool) (status : Nat) (token : Option String)
    (authenticated : Bool) (now : Int) (st : ClientState) :
    Except SternErr Bool × ClientState :=
  if connFail then
    (.error (.connError "Failed to connect to Stern API"), st)
  else if status = 200 ∧ (authenticated = true ∨ tokenTruthy token = true) then
    (.ok true, { access_token := token, token_expiry := now + 1800 })
  else if status = 401 then
    (.error (.authError "Invalid username or password"), st)
  else if status = 403 then
    (.error (.authError "Account access denied"), st)
  else
    (.error (.authError "Authentication failed"), st)

/-- api.validate_credentials: calls authenticate() inside try/except
SternAuthenticationError, returning True on success and False when an
authentication error was raised. Any other exception (in particular
SternConnectionError) is not caught. -/
def validate_credentials (connFail : Bool) (status : Nat) (token : Option String)
    (authenticated : Bool) (now : Int) (st : ClientState) :
    Except SternErr Bool × ClientState :=
  match do_authenticate connFail status token authenticated now st with
  | (.ok _, st2) => (.ok true, st2)
  | (.error (.authError _), st2) => (.ok false, st2)
  | (.error (.connError m), st2) => (.error (.connError m), st2)

/-! ## The read-request retry protocol (api._request) -/

/-- An HTTP response to a read request: status and parsed JSON body. -/
structure HttpResp where
  status : Nat
  body : JValue

/-- True for the statuses the retry handler reacts to. -/
def statusRetry (s : Nat) : Bool := s == 401 || s == 403

/-- aiohttp raise_for_status: raises ClientResponseError (an
aiohttp.ClientError, hence converted to SternConnectionError by the
surrounding except clause) for any status of 400 or above. -/
def statusOk (s : Nat) : Bool := s < 400

/-- Observable outcome of one _request call: the returned body or raised
error, the number of HTTP requests issued, the number of authenticate()
calls performed by the 401/403 handler, the number performed up front by
_ensure_authenticated, and whether the cached token was discarded. -/
structure RequestOutcome where
  result : Except SternErr JValue
  httpCalls : Nat
  reauths : Nat
  preAuths : Nat
  tokenDiscarded : Bool

/-- The part of api._request after the initial _ensure_authenticated: issue
the request; on 401/403 discard the token, re-authenticate once (outcome
reAuthR) and retry exactly once, a second 401/403 raising
SternAuthenticationError; otherwise raise_for_status and return the body. -/
def requestAfterAuth (pre : Nat) (reAuthR : Except SternErr Unit)
    (r1 r2 : HttpResp) : RequestOutcome :=
  if statusRetry r1.status then
    match reAuthR with
    | .error e => ⟨.error e, 1, 1, pre, true⟩
    | .ok _ =>
      if statusRetry r2.status then
        ⟨.error (.authError "Authentication failed after retry"), 2, 1, pre, true⟩
      else if statusOk r2.status then
        ⟨.ok r2.body, 2, 1, pre, true⟩
      else
        ⟨.error (.connError "API request failed"), 2, 1, pre, true⟩
  else if statusOk r1.status then
    ⟨.ok r1.body, 1, 0, pre, false⟩
  else
    ⟨.error (.connError "API request failed"), 1, 0, pre, false⟩

/-- api._request, abstracted over the environment: tokenValid is the result
of the initial _is_token_valid check, preAuthR and reAuthR the outcomes of
the authenticate() calls made by _ensure_authenticated before the request
and inside the 401/403 handler, r1 and r2 the first and (if reached) second
HTTP responses to the request. -/
def request (tokenValid : Bool) (preAuthR reAuthR : Except SternErr Unit)
    (r1 r2 : HttpResp) : RequestOutcome :=
  if tokenValid then
    requestAfterAuth 0 reAuthR r1 r2
  else
    match preAuthR with
    | .error e => ⟨.error e, 0, 0, 1, false⟩
    | .ok _ =>
      let o := requestAfterAuth 0 reAuthR r1 r2
      { o with preAuths := 1 }

/-! ## Coordinator (coordinator.py) -/

/-- The per-machine map rank -> score_id kept in _previous_scores. Python
dict semantics: updating an existing key overwrites it in place, a new key
is appended; lookup finds the unique occurrence. -/
abbrev ScoreMap := List (Int × String)

/-- Python dict item assignment d[k] = v on an association list. -/
def assocSet {κ α : Type} [DecidableEq κ] : List (κ × α) → κ → α → List (κ × α)
  | [], k, v => [(k, v)]
  | (k1, v1) :: rest, k, v =>
      if k1 = k then (k1, v) :: rest else (k1, v1) :: assocSet rest k v

/-- Python dict lookup d.get(k) on an association list. -/
def assocGet {κ α : Type} [DecidableEq κ] : List (κ × α) → κ → Option α
  | [], _ => none
  | (k1, v1) :: rest, k => if k1 = k then some v1 else assocGet rest k

/-- The event fired on the bus for a new high score
(coordinator._fire_new_score_event's event_data). -/
structure NewScoreEvent where
  machine_id : String
  machine_name : JValue
  score : JValue
  rank : Int
  player_name : JValue
  player_username : JValue
  player_initials : JValue
  is_new_entry : Bool

/-- Builds the event _fire_new_score_event publishes for a score. -/
def fireEvent (machine : Machine) (s : HighScore) : NewScoreEvent :=
  { machine_id := machine.machine_id, machine_name := machine.name,
    score := s.score, rank := s.rank, player_name := s.player_name,
    player_username := s.player_username, player_initials := s.player_initials,
    is_new_entry := true }

/-- The is_new_entry test of _check_new_scores for one score against the
previous map: a previous id existed for the rank and differs from the new
score_id. -/
def newPred (previous : ScoreMap) (s : HighScore) : Bool :=
  match assocGet previous s.rank with
  | some p => p != s.score_id
  | none => false

/-- The loop of _check_new_scores: builds the current rank -> score_id map
and fires an event for each score whose rank had a previous id different
from its new id. -/
def checkLoop (machine : Machine) (previous : ScoreMap) :
    List HighScore → ScoreMap → ScoreMap × List NewScoreEvent
  | [], current => (current, [])
  | s :: rest, current =>
      let current2 := assocSet current s.rank s.score_id
      let isNew : Bool := newPred previous s
      let (finalMap, evs) := checkLoop machine previous rest current2
      (finalMap, (if isNew then [fireEvent machine s] else []) ++ evs)

/-- coordinator._check_new_scores: compares against the previous cycle's map
for this machine (empty when absent), fires the events, and replaces the
stored map for the machine by the current one. -/
def check_new_scores (machine : Machine) (prevAll : List (String × ScoreMap))
    (high_scores : List HighScore) :
    List (String × ScoreMap) × List NewScoreEvent :=
  let previous := (assocGet prevAll machine.machine_id).getD []
  let (current, evs) := checkLoop machine previous high_scores []
  (assocSet prevAll machine.machine_id current, evs)

/-- The errors _async_update_data surfaces to the host scheduler. -/
inductive CoordErr where
  | configEntryAuthFailed
  | updateFailed (msg : String)
  deriving DecidableEq, Repr

/-- The warning logged when a machine's score fetch fails. -/
def scoreFetchLog (m : Machine) : String :=
  "Failed to fetch high scores for " ++ pyStr m.name

/-- The per-machine loop of _async_update_data: fetch each machine's scores;
on success attach them, publish the machine and run the new-score check; on
any SternAPIError log a warning and publish the machine unchanged (empty or
stale score list). result is the snapshot dict being built. -/
def updateLoop (fetch : String → Except SternErr (List HighScore)) :
    List Machine → List (String × Machine) → List (String × ScoreMap) →
    List String → List NewScoreEvent →
    List (String × Machine) × List (String × ScoreMap) × List String × List NewScoreEvent
  | [], result, prev, logs, evs => (result, prev, logs, evs)
  | m :: rest, result, prev, logs, evs =>
      match fetch m.machine_id with
      | .ok hs =>
          let m2 := { m with high_scores := hs }
          let result2 := assocSet result m2.machine_id m2
          let (prev2, newEvs) := check_new_scores m2 prev hs
          updateLoop fetch rest result2 prev2 logs (evs ++ newEvs)
      | .error _ =>
          let result2 := assocSet result m.machine_id m
          updateLoop fetch rest result2 prev (logs ++ [scoreFetchLog m]) evs

/-- coordinator._async_update_data, abstracted over the API: machinesR is the
outcome of get_machines(), fetch the outcome of get_high_scores per machine
id, prev the stored _previous_scores. Returns the published snapshot or the
coordinator-level failure, the updated _previous_scores, the warnings logged
and the events fired. A top-level SternAuthenticationError becomes
ConfigEntryAuthFailed; a SternConnectionError becomes UpdateFailed. -/
def async_update_data (machinesR : Except SternErr (List Machine))
    (fetch : String → Except SternErr (List HighScore))
    (prev : List (String × ScoreMap)) :
    Except CoordErr (List (String × Machine)) ×
      List (String × ScoreMap) × List String × List NewScoreEvent :=
  match machinesR with
  | .ok ms =>
      let (result, prev2, logs, evs) := updateLoop fetch ms [] prev [] []
      (.ok result, prev2, logs, evs)
  | .error (.authError _) =>
      (.error .configEntryAuthFailed, prev, [], [])
  | .error (.connError m) =>
      (.error (.updateFailed ("Failed to connect to Stern API: " ++ m)), prev, [], [])

/-- The machine a successful cycle publishes for m: its fetched scores when
the fetch succeeded, m unchanged (empty or stale list) when it failed. -/
def applyFetch (fetch : String → Except SternErr (List HighScore)) (m : Machine) :
    Machine :=
  match fetch m.machine_id with
  | .ok hs => { m with high_scores := hs }
  | .error _ => m

/-- True when the score fetch for machine m fails. -/
def fetchFails (fetch : String → Except SternErr (List HighScore)) (m : Machine) :
    Bool :=
  match fetch m.machine_id with
  | .ok _ => false
  | .error _ => true

/-! ## Helper lemmas -/

theorem exceptBind_ok {ε α β : Type} {x : Except ε α} {f : α → Except ε β} {b : β}
    (h : (x >>= f) = .ok b) : ∃ a, x = .ok a ∧ f a = .ok b := by
  cases x with
  | ok a => exact ⟨a, rfl, h⟩
  | error e => simp [Bind.bind, Except.bind] at h

theorem mkHighScore_rank_id {idx : Nat} {item : JValue} {s : HighScore}
    (h : mkHighScore idx item = .ok s) :
    s.rank = (idx : Int) + 1 ∧ s.score_id = toString ((idx : Int) + 1) := by
  unfold mkHighScore at h
  obtain ⟨user, hu, h⟩ := exceptBind_ok h
  obtain ⟨sv, hsv, h⟩ := exceptBind_ok h
  obtain ⟨pn, hpn, h⟩ := exceptBind_ok h
  obtain ⟨pu, hpu, h⟩ := exceptBind_ok h
  obtain ⟨pi, hpi, h⟩ := exceptBind_ok h
  obtain ⟨av, hav, h⟩ := exceptBind_ok h
  injection h with h
  subst h
  exact ⟨rfl, rfl⟩

theorem hsLoop_mem {items : List JValue} :
    ∀ {idx : Nat} {l : List HighScore}, hsLoop idx items = .ok l →
    ∀ s ∈ l, (idx : Int) < s.rank ∧ s.score_id = toString s.rank := by
  induction items with
  | nil =>
      intro idx l h s hs
      unfold hsLoop at h
      injection h with h
      subst h
      cases hs
  | cons item rest ih =>
      intro idx l h s hs
      unfold hsLoop at h
      obtain ⟨hd, hhd, h⟩ := exceptBind_ok h
      obtain ⟨tl, htl, h⟩ := exceptBind_ok h
      injection h with h
      subst h
      obtain ⟨hrank, hid⟩ := mkHighScore_rank_id hhd
      rcases List.mem_cons.mp hs with heq | hmem
      · subst heq
        refine ⟨by omega, ?_⟩
        rw [hid, hrank]
      · obtain ⟨hlt, hidm⟩ := ih htl s hmem
        refine ⟨?_, hidm⟩
        have : ((idx + 1 : Nat) : Int) = (idx : Int) + 1 := by push_cast; ring
        omega

theorem hsLoop_sorted {items : List JValue} :
    ∀ {idx : Nat} {l : List HighScore}, hsLoop idx items = .ok l →
    l.Pairwise (fun a b => a.rank < b.rank) := by
  induction items with
  | nil =>
      intro idx l h
      unfold hsLoop at h
      injection h with h
      subst h
      exact List.Pairwise.nil
  | cons item rest ih =>
      intro idx l h
      unfold hsLoop at h
      obtain ⟨hd, hhd, h⟩ := exceptBind_ok h
      obtain ⟨tl, htl, h⟩ := exceptBind_ok h
      injection h with h
      subst h
      refine List.Pairwise.cons ?_ (ih htl)
      intro s hs
      obtain ⟨hlt, _⟩ := hsLoop_mem htl s hs
      obtain ⟨hrank, _⟩ := mkHighScore_rank_id hhd
      have : ((idx + 1 : Nat) : Int) = (idx : Int) + 1 := by push_cast; ring
      omega

theorem hsLoop_map_rank_id {items : List JValue} :
    ∀ {idx : Nat} {l : List HighScore}, hsLoop idx items = .ok l →
    l.map HighScore.rank =
      (List.range items.length).map (fun k : Nat => (idx : Int) + 1 + (k : Int)) ∧
    l.map HighScore.score_id =
      (List.range items.length).map
        (fun k : Nat => toString ((idx : Int) + 1 + (k : Int))) := by
  induction items with
  | nil =>
      intro idx l h
      unfold hsLoop at h
      injection h with h
      subst h
      simp
  | cons item rest ih =>
      intro idx l h
      unfold hsLoop at h
      obtain ⟨hd, hhd, h⟩ := exceptBind_ok h
      obtain ⟨tl, htl, h⟩ := exceptBind_ok h
      injection h with h
      subst h
      obtain ⟨hrank, hid⟩ := mkHighScore_rank_id hhd
      obtain ⟨ihr, ihi⟩ := ih htl
      constructor
      · rw [List.map_cons, hrank, ihr, List.length_cons, List.range_succ_eq_map,
          List.map_cons, List.map_map]
        congr 1
        apply List.map_congr_left
        intro a _
        simp only [Function.comp_apply]
        push_cast
        ring
      · rw [List.map_cons, hid, ihi, List.length_cons, List.range_succ_eq_map,
          List.map_cons, List.map_map]
        congr 1
        apply List.map_congr_left
        intro a _
        simp only [Function.comp_apply]
        congr 1
        push_cast
        ring

theorem get_high_scores_ok {data : JValue} {l : List HighScore}
    (h : get_high_scores data = .ok l) :
    ∃ items hs, hsLoop 0 items = .ok hs ∧ l = hs.take 5 := by
  unfold get_high_scores at h
  obtain ⟨scores_list, h1, h⟩ := exceptBind_ok h
  obtain ⟨items, h2, h⟩ := exceptBind_ok h
  obtain ⟨hs, h3, h⟩ := exceptBind_ok h
  injection h with h
  exact ⟨items, hs, h3, h.symm⟩

/-! ## Claim theorems -/

/-- C4: for every machine id and every well-formed high-scores response,
get_high_scores returns at most 5 entries, sorted by ascending rank. -/
theorem get_high_scores_top5_sorted (data : JValue) (l : List HighScore)
    (h : get_high_scores data = .ok l) :
    l.length ≤ 5 ∧ l.Pairwise (fun a b => a.rank < b.rank) := by
  obtain ⟨items, hs, hloop, rfl⟩ := get_high_scores_ok h
  constructor
  · simp only [List.length_take]
    omega
  · exact List.Pairwise.sublist (List.take_sublist 5 hs) (hsLoop_sorted hloop)

/-- Concrete two-entry high-scores response used as a witness input. -/
def exScoresData : JValue :=
  .jobj [("high_score", .jlist
    [.jobj [("user", .jobj [("username", .jstr "alice")]), ("score", .jstr "1000")],
     .jobj [("user", .jobj []), ("score", .jnum 500)]])]

/-- The entries get_high_scores produces for exScoresData. -/
def exScoresOut : List HighScore :=
  [{ score_id := "1", rank := 1, score := .jnum 1000, player_name := .jstr "alice",
     player_username := .jstr "alice", player_initials := .jstr "???",
     avatar_url := .jnull },
   { score_id := "2", rank := 2, score := .jnum 500, player_name := .jstr "Unknown",
     player_username := .jstr "", player_initials := .jstr "???",
     avatar_url := .jnull }]

/-- Witness for C4 at a concrete response. -/
theorem get_high_scores_top5_sorted_witness :
    exScoresOut.length ≤ 5 ∧ exScoresOut.Pairwise (fun a b => a.rank < b.rank) :=
  get_high_scores_top5_sorted exScoresData exScoresOut (by rfl)

/-- A response whose single entry carries an explicit rank field of 7. -/
def rankFieldData : JValue :=
  .jobj [("high_score", .jlist
    [.jobj [("rank", .jnum 7), ("user", .jobj [("username", .jstr "bob")]),
            ("score", .jstr "42")]])]

/-- The entry get_high_scores actually returns for rankFieldData. -/
def rankFieldOut : HighScore :=
  { score_id := "1", rank := 1, score := .jnum 42, player_name := .jstr "bob",
    player_username := .jstr "bob", player_initials := .jstr "???",
    avatar_url := .jnull }

/-- C5 counterexample: an entry carrying an explicit rank field of 7 is
returned with rank 1 (its index plus one), not with rank 7 — the code never
reads a rank or position field. -/
theorem get_high_scores_rank_field_ignored_cex :
    get_high_scores rankFieldData = .ok [rankFieldOut] ∧
    rankFieldOut.rank = 1 ∧ rankFieldOut.rank ≠ 7 :=
  ⟨by rfl, rfl, by decide⟩

/-- C5 amended: get_high_scores assigns every entry the rank index+1 and the
score id str(index+1), ignoring any explicit rank or position field of the
entry. -/
theorem get_high_scores_rank_is_index (data : JValue) (l : List HighScore)
    (h : get_high_scores data = .ok l) :
    l.map HighScore.rank =
      (List.range l.length).map (fun k : Nat => (k : Int) + 1) ∧
    l.map HighScore.score_id =
      (List.range l.length).map (fun k : Nat => toString ((k : Int) + 1)) := by
  obtain ⟨items, hs, hloop, rfl⟩ := get_high_scores_ok h
  obtain ⟨hr, hi⟩ := hsLoop_map_rank_id hloop
  have hlen : hs.length = items.length := by
    have := congrArg List.length hr
    simpa using this
  constructor
  · rw [List.length_take, hlen, List.map_take, hr, ← List.map_take, List.take_range]
    apply List.map_congr_left
    intro a _
    push_cast
    ring
  · rw [List.length_take, hlen, List.map_take, hi, ← List.map_take, List.take_range]
    apply List.map_congr_left
    intro a _
    congr 1
    push_cast
    ring

/-- Witness for the amended C5 at the rank-7 response. -/
theorem get_high_scores_rank_is_index_witness :
    [rankFieldOut].map HighScore.rank =
      (List.range ([rankFieldOut].length)).map (fun k : Nat => (k : Int) + 1) ∧
    [rankFieldOut].map HighScore.score_id =
      (List.range ([rankFieldOut].length)).map
        (fun k : Nat => toString ((k : Int) + 1)) :=
  get_high_scores_rank_is_index rankFieldData [rankFieldOut] (by rfl)

/-- One machine item in the response format documented in api.py itself
(the nested-under-user envelope). -/
def machineItemEx : JValue :=
  .jobj [("id", .jnum 7), ("model", .jobj [("title", .jobj [("name", .jstr "X")])])]

/-- C2: get_machines raises TypeError on its own documented response format
whenever the machines list is non-empty, because it passes the Machine
dataclass keyword arguments it does not declare. The second conjunct records
the cause: the passed keyword set is not contained in the declared fields. -/
theorem get_machines_ctor_mismatch_bug :
    get_machines (.jobj [("user", .jobj [("machines", .jlist [machineItemEx])])]) =
      .error .typeError ∧
    machineCtorKwargs.all (fun k => machineFields.contains k) = false :=
  ⟨by rfl, by rfl⟩

/-- C6: the token is valid iff a (truthy) token is present and now is
strictly before expiry minus the 300 s buffer; with expiry = t0 + 1800 the
token is valid at t0 and invalid once 1500 s or more have elapsed. -/
theorem is_token_valid_iff (tok : Option String) (expiry now t0 e : Int) :
    (is_token_valid tok expiry now = true ↔
      tokenTruthy tok = true ∧ now < expiry - TOKEN_EXPIRY_BUFFER) ∧
    is_token_valid (some "token") (t0 + 1800) t0 = true ∧
    (1500 ≤ e → is_token_valid (some "token") (t0 + 1800) (t0 + e) = false) := by
  have htok : tokenTruthy (some "token") = true := by rfl
  unfold is_token_valid TOKEN_EXPIRY_BUFFER
  refine ⟨?_, ?_, ?_⟩
  · cases h : tokenTruthy tok <;> simp [h]
  · rw [htok]
    simp only [Bool.not_true, Bool.false_eq_true, if_false, decide_eq_true_eq]
    omega
  · intro he
    rw [htok]
    simp only [Bool.not_true, Bool.false_eq_true, if_false, decide_eq_false_iff_not]
    omega

/-- Witness for C6 at concrete times (buffer 300, expiry 0 + 1800). -/
theorem is_token_valid_iff_witness :
    is_token_valid (some "token") (0 + 1800) 0 = true ∧
    is_token_valid (some "token") (0 + 1800) (0 + 1500) = false := by
  have h := is_token_valid_iff (some "token") 0 0 0 1500
  exact ⟨h.2.1, h.2.2 (by norm_num)⟩

/-- C7 counterexample: a 200 response lacking a token cookie but carrying a
positive authenticated flag makes authenticate() return success (storing no
token) instead of raising AuthenticationError as the claim requires for a
response lacking a token. -/
theorem authenticate_authflag_no_token_cex :
    do_authenticate false 200 none true 0 ⟨none, 0⟩ =
      (.ok true, ⟨none, 1800⟩) := by rfl

/-- C7 amended: without a transport failure, authenticate() succeeds exactly
on a 200 response carrying a truthy token cookie or a positive authenticated
flag; success stores the extracted token (possibly none) with expiry now+1800,
strictly in the future; every other response raises AuthenticationError and
leaves the client state unchanged; a transport failure raises ConnectionError
and leaves the state unchanged. -/
theorem do_authenticate_behavior (status : Nat) (token : Option String)
    (authenticated : Bool) (now : Int) (st : ClientState) :
    ((do_authenticate false status token authenticated now st).1 = .ok true ↔
      (status = 200 ∧ (authenticated = true ∨ tokenTruthy token = true))) ∧
    ((do_authenticate false status token authenticated now st).1 = .ok true →
      (do_authenticate false status token authenticated now st).2 =
        ⟨token, now + 1800⟩ ∧
      now < (do_authenticate false status token authenticated now st).2.token_expiry) ∧
    ((do_authenticate false status token authenticated now st).1 ≠ .ok true →
      (∃ m, (do_authenticate false status token authenticated now st).1 =
        .error (.authError m)) ∧
      (do_authenticate false status token authenticated now st).2 = st) ∧
    (∀ cst : ClientState,
      do_authenticate true status token authenticated now cst =
        (.error (.connError "Failed to connect to Stern API"), cst)) := by
  refine ⟨?_, ?_, ?_, fun cst => by rfl⟩ <;>
    · unfold do_authenticate
      split_ifs <;> simp_all

/-- Witness for the amended C7: a 200-with-token success and a 401 failure. -/
theorem do_authenticate_behavior_witness :
    (do_authenticate false 200 (some "tok") false 7 ⟨none, 0⟩).1 = .ok true ∧
    (do_authenticate false 200 (some "tok") false 7 ⟨none, 0⟩).2 =
      ⟨some "tok", 7 + 1800⟩ ∧
    (∃ m, (do_authenticate false 401 none false 7 ⟨none, 0⟩).1 =
      .error (.authError m)) ∧
    (do_authenticate false 401 none false 7 ⟨none, 0⟩).2 = ⟨none, 0⟩ := by
  have h := do_authenticate_behavior 200 (some "tok") false 7 ⟨none, 0⟩
  have h2 := do_authenticate_behavior 401 none false 7 ⟨none, 0⟩
  have hfst := h.1.mpr ⟨rfl, Or.inr (by rfl)⟩
  have hne : (do_authenticate false 401 none false 7 ⟨none, 0⟩).1 ≠ .ok true := by
    intro hc
    have hx := h2.1.mp hc
    omega
  exact ⟨hfst, (h.2.1 hfst).1, (h2.2.2.1 hne).1, (h2.2.2.1 hne).2⟩

/-- C1 counterexample: when authenticate() fails with a connection error,
validate_credentials propagates the SternConnectionError instead of
returning a boolean — the claim that it never raises for a connection
failure is false. -/
theorem validate_credentials_conn_raises_cex :
    validate_credentials true 200 none false 0 ⟨none, 0⟩ =
      (.error (.connError "Failed to connect to Stern API"), ⟨none, 0⟩) := by rfl

/-- C1 amended: validate_credentials returns True when authenticate()
succeeds and False when it raises AuthenticationError, never raising in
those two cases; a SternConnectionError from authenticate() propagates
unchanged. -/
theorem validate_credentials_behavior (connFail : Bool) (status : Nat)
    (token : Option String) (authenticated : Bool) (now : Int) (st : ClientState) :
    (validate_credentials connFail status token authenticated now st).2 =
      (do_authenticate connFail status token authenticated now st).2 ∧
    ((∃ b, (do_authenticate connFail status token authenticated now st).1 = .ok b) →
      (validate_credentials connFail status token authenticated now st).1 = .ok true) ∧
    (∀ m, (do_authenticate connFail status token authenticated now st).1 =
        .error (.authError m) →
      (validate_credentials connFail status token authenticated now st).1 = .ok false) ∧
    (∀ m, (do_authenticate connFail status token authenticated now st).1 =
        .error (.connError m) →
      (validate_credentials connFail status token authenticated now st).1 =
        .error (.connError m)) := by
  unfold validate_credentials
  rcases hda : do_authenticate connFail status token authenticated now st with ⟨r, snd⟩
  cases r with
  | ok b => simp
  | error e =>
    cases e with
    | authError m => simp
    | connError m => simp

/-- Witness for the amended C1: a 401 gives False, a transport failure
propagates, a token-carrying 200 gives True. -/
theorem validate_credentials_behavior_witness :
    (validate_credentials false 401 none false 0 ⟨none, 0⟩).1 = .ok false ∧
    (validate_credentials true 200 none false 0 ⟨none, 0⟩).1 =
      .error (.connError "Failed to connect to Stern API") ∧
    (validate_credentials false 200 (some "tok") false 0 ⟨none, 0⟩).1 = .ok true := by
  have h1 := validate_credentials_behavior false 401 none false 0 ⟨none, 0⟩
  have h2 := validate_credentials_behavior true 200 none false 0 ⟨none, 0⟩
  have h3 := validate_credentials_behavior false 200 (some "tok") false 0 ⟨none, 0⟩
  exact ⟨h1.2.2.1 "Invalid username or password" (by rfl),
         h2.2.2.2 "Failed to connect to Stern API" (by rfl),
         h3.2.1 ⟨true, by rfl⟩⟩

/-- C3: on a 401/403 first response (the pre-request authentication having
succeeded), the client discards the cached token and re-authenticates
exactly once; when the re-authentication succeeds it retries exactly once
(two HTTP requests in total, never a third); a second 401/403 raises
SternAuthenticationError. -/
theorem request_retry_policy (tokenValid : Bool) (reAuthR : Except SternErr Unit)
    (r1 r2 : HttpResp) (h : statusRetry r1.status = true) :
    (request tokenValid (.ok ()) reAuthR r1 r2).tokenDiscarded = true ∧
    (request tokenValid (.ok ()) reAuthR r1 r2).reauths = 1 ∧
    (request tokenValid (.ok ()) reAuthR r1 r2).httpCalls ≤ 2 ∧
    (reAuthR = .ok () →
      (request tokenValid (.ok ()) reAuthR r1 r2).httpCalls = 2 ∧
      (statusRetry r2.status = true →
        (request tokenValid (.ok ()) reAuthR r1 r2).result =
          .error (.authError "Authentication failed after retry"))) := by
  unfold request requestAfterAuth
  rw [h]
  cases tokenValid <;> cases reAuthR <;> simp_all <;> split_ifs <;> simp_all

/-- Witness for C3: 401 then 403 with a cached valid token. -/
theorem request_retry_policy_witness :
    (request true (.ok ()) (.ok ()) ⟨401, .jnull⟩ ⟨403, .jnull⟩).reauths = 1 ∧
    (request true (.ok ()) (.ok ()) ⟨401, .jnull⟩ ⟨403, .jnull⟩).httpCalls = 2 ∧
    (request true (.ok ()) (.ok ()) ⟨401, .jnull⟩ ⟨403, .jnull⟩).result =
      .error (.authError "Authentication failed after retry") := by
  have h := request_retry_policy true (.ok ()) ⟨401, .jnull⟩ ⟨403, .jnull⟩ (by rfl)
  exact ⟨h.2.1, (h.2.2.2 rfl).1, (h.2.2.2 rfl).2 (by rfl)⟩

theorem assocGet_assocSet {κ α : Type} [DecidableEq κ]
    (m : List (κ × α)) (k : κ) (v : α) (r : κ) :
    assocGet (assocSet m k v) r = if r = k then some v else assocGet m r := by
  induction m with
  | nil =>
      by_cases h : r = k
      · subst h; simp [assocSet, assocGet]
      · simp [assocSet, assocGet, h, Ne.symm h]
  | cons p rest ih =>
      rcases p with ⟨k1, v1⟩
      by_cases h1 : k1 = k
      · subst h1
        by_cases h2 : r = k1
        · subst h2; simp [assocSet, assocGet]
        · simp [assocSet, assocGet, h2, Ne.symm h2]
      · by_cases h2 : k1 = r
        · subst h2
          simp [assocSet, assocGet, h1, Ne.symm h1]
        · simp [assocSet, assocGet, h1, h2, ih]

theorem checkLoop_snd (machine : Machine) (previous : ScoreMap)
    (ss : List HighScore) :
    ∀ cur, (checkLoop machine previous ss cur).2 =
      (ss.filter (newPred previous)).map (fireEvent machine) := by
  induction ss with
  | nil => intro cur; rfl
  | cons s rest ih =>
      intro cur
      have ih2 := ih (assocSet cur s.rank s.score_id)
      rcases hrec : checkLoop machine previous rest (assocSet cur s.rank s.score_id)
        with ⟨fm, evs⟩
      rw [hrec] at ih2
      simp only [checkLoop, hrec]
      by_cases hp : newPred previous s = true <;>
        simp [List.filter_cons, hp] <;> exact ih2

theorem checkLoop_fst_toString (machine : Machine) (previous : ScoreMap) :
    ∀ (ss : List HighScore), (∀ s ∈ ss, s.score_id = toString s.rank) →
    ∀ cur, (∀ r v, assocGet cur r = some v → v = toString r) →
    ∀ r v, assocGet (checkLoop machine previous ss cur).1 r = some v →
      v = toString r := by
  intro ss
  induction ss with
  | nil =>
      intro _ cur hcur r v h
      exact hcur r v h
  | cons s rest ih =>
      intro hss cur hcur r v h
      have hs := hss s (List.mem_cons_self s rest)
      have hrest : ∀ x ∈ rest, x.score_id = toString x.rank :=
        fun x hx => hss x (List.mem_cons_of_mem s hx)
      rcases hrec : checkLoop machine previous rest (assocSet cur s.rank s.score_id)
        with ⟨fm, evs⟩
      simp only [checkLoop, hrec] at h
      refine ih hrest (assocSet cur s.rank s.score_id) ?_ r v (by rw [hrec]; exact h)
      intro r2 v2 h2
      rw [assocGet_assocSet] at h2
      split_ifs at h2 with he
      · injection h2 with h2
        subst he
        rw [← h2, hs]
      · exact hcur r2 v2 h2

/-- A concrete machine m1 used in the coordinator scenarios. -/
def exMachine : Machine :=
  { machine_id := "m1", name := .jstr "Machine One", game_title := .jstr "Machine One",
    image_url := .jnull, high_scores := [] }

/-- A rank-1 score with id B. -/
def exScoreB : HighScore :=
  { score_id := "B", rank := 1, score := .jnum 100, player_name := .jstr "pat",
    player_username := .jstr "pat", player_initials := .jstr "PAT",
    avatar_url := .jnull }

/-- A rank-1 score with id A. -/
def exScoreA : HighScore :=
  { score_id := "A", rank := 1, score := .jnum 100, player_name := .jstr "pat",
    player_username := .jstr "pat", player_initials := .jstr "PAT",
    avatar_url := .jnull }

/-- C8: the coordinator fires an event for a returned score exactly when a
previous id existed for its (machine, rank) and differs from the new id; in
particular replacing id A by B at rank 1 fires exactly one event, and a
first population from an empty previous map fires none. -/
theorem check_new_scores_events_iff :
    (∀ (machine : Machine) (prevAll : List (String × ScoreMap))
       (scores : List HighScore),
      (check_new_scores machine prevAll scores).2 =
        (scores.filter
          (newPred ((assocGet prevAll machine.machine_id).getD []))).map
          (fireEvent machine)) ∧
    (check_new_scores exMachine [("m1", [(1, "A")])] [exScoreB]).2 =
      [fireEvent exMachine exScoreB] ∧
    (check_new_scores exMachine [] [exScoreA]).2 = [] := by
  refine ⟨?_, by rfl, by rfl⟩
  intro machine prevAll scores
  rcases hrec : checkLoop machine ((assocGet prevAll machine.machine_id).getD [])
      scores [] with ⟨cur, evs⟩
  have hsnd := checkLoop_snd machine
    ((assocGet prevAll machine.machine_id).getD []) scores []
  rw [hrec] at hsnd
  simp only [check_new_scores, hrec]
  exact hsnd

theorem get_high_scores_mem_id {data : JValue} {l : List HighScore}
    (h : get_high_scores data = .ok l) :
    ∀ s ∈ l, s.score_id = toString s.rank := by
  obtain ⟨items, hs, hloop, rfl⟩ := get_high_scores_ok h
  intro s hsmem
  exact (hsLoop_mem hloop s (List.Sublist.subset (List.take_sublist 5 hs) hsmem)).2

/-- C10: because get_high_scores assigns score_id = str(rank) for every
entry, a poll cycle whose high scores come from get_high_scores, following
an earlier cycle whose high scores also came from get_high_scores, can
never fire a new-high-score event for that machine. -/
theorem coordinator_never_fires (machine : Machine)
    (prev0 : List (String × ScoreMap)) (d1 d2 : JValue)
    (l1 l2 : List HighScore)
    (h1 : get_high_scores d1 = .ok l1) (h2 : get_high_scores d2 = .ok l2) :
    (check_new_scores machine (check_new_scores machine prev0 l1).1 l2).2 = [] := by
  rcases hc1 : checkLoop machine ((assocGet prev0 machine.machine_id).getD []) l1 []
    with ⟨cur1, evs1⟩
  have hstore : (check_new_scores machine prev0 l1).1 =
      assocSet prev0 machine.machine_id cur1 := by
    simp only [check_new_scores, hc1]
  have hprev2 : assocGet (assocSet prev0 machine.machine_id cur1)
      machine.machine_id = some cur1 := by
    rw [assocGet_assocSet]
    simp
  have hcur1 : ∀ r v, assocGet cur1 r = some v → v = toString r := by
    have hx := checkLoop_fst_toString machine
      ((assocGet prev0 machine.machine_id).getD []) l1
      (get_high_scores_mem_id h1) []
      (by intro r v hv; simp [assocGet] at hv)
    rw [hc1] at hx
    exact hx
  rcases hc2 : checkLoop machine cur1 l2 [] with ⟨cur2, evs2⟩
  have hsnd := checkLoop_snd machine cur1 l2 []
  rw [hc2] at hsnd
  have hpred : ∀ s ∈ l2, ¬newPred cur1 s = true := by
    intro s hsmem
    unfold newPred
    cases hg : assocGet cur1 s.rank with
    | none => simp
    | some p =>
        have hp := hcur1 _ _ hg
        have hsid := get_high_scores_mem_id h2 s hsmem
        simp [hp, hsid]
  rw [hstore]
  simp only [check_new_scores, hprev2, Option.getD_some, hc2]
  have hfil : List.filter (newPred cur1) l2 = [] := List.filter_eq_nil_iff.mpr hpred
  exact hsnd.trans (by rw [hfil]; rfl)

/-- A second concrete high-scores response (different player and score). -/
def exScoresData2 : JValue :=
  .jobj [("high_score", .jlist
    [.jobj [("user", .jobj [("username", .jstr "carol")]), ("score", .jstr "2000")]])]

/-- The entry get_high_scores produces for exScoresData2. -/
def exScoresOut2 : List HighScore :=
  [{ score_id := "1", rank := 1, score := .jnum 2000, player_name := .jstr "carol",
     player_username := .jstr "carol", player_initials := .jstr "???",
     avatar_url := .jnull }]

/-- Witness for C10: two consecutive cycles fed by get_high_scores fire no
event even though the rank-1 score changed. -/
theorem coordinator_never_fires_witness :
    (check_new_scores exMachine
      (check_new_scores exMachine [] exScoresOut).1 exScoresOut2).2 = [] :=
  coordinator_never_fires exMachine [] exScoresData exScoresData2
    exScoresOut exScoresOut2 (by rfl) (by rfl)

theorem assocSet_append {κ α : Type} [DecidableEq κ] :
    ∀ (m : List (κ × α)) (k : κ) (v : α), (∀ p ∈ m, p.1 ≠ k) →
      assocSet m k v = m ++ [(k, v)] := by
  intro m
  induction m with
  | nil => intro k v _; rfl
  | cons p rest ih =>
      intro k v hfresh
      rcases p with ⟨k1, v1⟩
      have hne : k1 ≠ k := hfresh (k1, v1) (List.mem_cons_self _ _)
      simp only [assocSet, if_neg hne, List.cons_append]
      rw [ih k v (fun q hq => hfresh q (List.mem_cons_of_mem _ hq))]

theorem updateLoop_spec (fetch : String → Except SternErr (List HighScore)) :
    ∀ (ms : List Machine) (result : List (String × Machine))
      (prev : List (String × ScoreMap)) (logs : List String)
      (evs : List NewScoreEvent),
      (∀ m ∈ ms, ∀ p ∈ result, p.1 ≠ m.machine_id) →
      (ms.map Machine.machine_id).Nodup →
      (updateLoop fetch ms result prev logs evs).1 =
        result ++ ms.map (fun m => (m.machine_id, applyFetch fetch m)) ∧
      (updateLoop fetch ms result prev logs evs).2.2.1 =
        logs ++ (ms.filter (fetchFails fetch)).map scoreFetchLog := by
  intro ms
  induction ms with
  | nil =>
      intro result prev logs evs _ _
      simp [updateLoop]
  | cons m rest ih =>
      intro result prev logs evs hfresh hnodup
      rw [List.map_cons, List.nodup_cons] at hnodup
      obtain ⟨hnotin, hnd⟩ := hnodup
      have hfresh1 : ∀ p ∈ result, p.1 ≠ m.machine_id :=
        hfresh m (List.mem_cons_self _ _)
      cases hf : fetch m.machine_id with
      | ok hs =>
          have hmid : ({ m with high_scores := hs } : Machine).machine_id =
            m.machine_id := rfl
          have hset : assocSet result m.machine_id ({ m with high_scores := hs }) =
              result ++ [(m.machine_id, { m with high_scores := hs })] :=
            assocSet_append result _ _ hfresh1
          rcases hcs : check_new_scores { m with high_scores := hs } prev hs
            with ⟨prev2, newEvs⟩
          have hfresh2 : ∀ x ∈ rest,
              ∀ p ∈ result ++ [(m.machine_id, ({ m with high_scores := hs } : Machine))],
                p.1 ≠ x.machine_id := by
            intro x hx p hp
            rcases List.mem_append.mp hp with hp1 | hp2
            · exact hfresh x (List.mem_cons_of_mem _ hx) p hp1
            · have : p = (m.machine_id, ({ m with high_scores := hs } : Machine)) := by
                simpa using hp2
              subst this
              intro hc
              have hc2 : m.machine_id = x.machine_id := hc
              exact hnotin (hc2 ▸ List.mem_map_of_mem Machine.machine_id hx)
          have ihx := ih (result ++ [(m.machine_id, { m with high_scores := hs })])
            prev2 logs (evs ++ newEvs) hfresh2 hnd
          unfold updateLoop
          rw [hf]
          simp only [hmid, hset, hcs]
          refine ⟨?_, ?_⟩
          · rw [ihx.1, List.map_cons, List.append_assoc]
            simp [applyFetch, hf]
          · rw [ihx.2, List.filter_cons]
            simp [fetchFails, hf]
      | error e =>
          have hset : assocSet result m.machine_id m =
              result ++ [(m.machine_id, m)] :=
            assocSet_append result _ _ hfresh1
          have hfresh2 : ∀ x ∈ rest,
              ∀ p ∈ result ++ [(m.machine_id, m)], p.1 ≠ x.machine_id := by
            intro x hx p hp
            rcases List.mem_append.mp hp with hp1 | hp2
            · exact hfresh x (List.mem_cons_of_mem _ hx) p hp1
            · have : p = (m.machine_id, m) := by simpa using hp2
              subst this
              intro hc
              have hc2 : m.machine_id = x.machine_id := hc
              exact hnotin (hc2 ▸ List.mem_map_of_mem Machine.machine_id hx)
          have ihx := ih (result ++ [(m.machine_id, m)]) prev
            (logs ++ [scoreFetchLog m]) evs hfresh2 hnd
          unfold updateLoop
          rw [hf]
          simp only [hset]
          refine ⟨?_, ?_⟩
          · rw [ihx.1, List.map_cons, List.append_assoc]
            simp [applyFetch, hf]
          · rw [ihx.2, List.filter_cons, List.append_assoc]
            simp [fetchFails, hf]

/-- C9: when the machines fetch succeeds (machine ids being distinct, as
dict keys), every machine is published in the snapshot of the same cycle:
one whose score fetch failed is published unchanged (empty or stale score
list) with a warning logged, and every other machine carries its fetched
scores. -/
theorem async_update_partial_failure (ms : List Machine)
    (fetch : String → Except SternErr (List HighScore))
    (prev : List (String × ScoreMap))
    (h : (ms.map Machine.machine_id).Nodup) :
    (async_update_data (.ok ms) fetch prev).1 =
      .ok (ms.map (fun m => (m.machine_id, applyFetch fetch m))) ∧
    (async_update_data (.ok ms) fetch prev).2.2.1 =
      (ms.filter (fetchFails fetch)).map scoreFetchLog := by
  have hs := updateLoop_spec fetch ms [] prev [] [] (by simp) h
  rcases hul : updateLoop fetch ms [] prev [] [] with ⟨res, rest3⟩
  rcases rest3 with ⟨prev2, rest2⟩
  rcases rest2 with ⟨logs, evs⟩
  rw [hul] at hs
  simp only [List.nil_append] at hs
  simp only [async_update_data, hul]
  exact ⟨congrArg Except.ok hs.1, hs.2⟩

/-- A second concrete machine m2. -/
def exMachine2 : Machine :=
  { machine_id := "m2", name := .jstr "Machine Two", game_title := .jstr "Machine Two",
    image_url := .jnull, high_scores := [] }

/-- A fetch oracle that fails for m1 and returns no scores for any other id. -/
def exFetch : String → Except SternErr (List HighScore) := fun mid =>
  if mid = "m1" then .error (.connError "boom") else .ok []

/-- Witness for C9: with m1's score fetch failing, both machines are still
published and exactly one warning is logged. -/
theorem async_update_partial_failure_witness :
    (async_update_data (.ok [exMachine, exMachine2]) exFetch []).1 =
      .ok [("m1", applyFetch exFetch exMachine), ("m2", applyFetch exFetch exMachine2)] ∧
    (async_update_data (.ok [exMachine, exMachine2]) exFetch []).2.2.1 =
      ["Failed to fetch high scores for Machine One"] := by
  have h := async_update_partial_failure [exMachine, exMachine2] exFetch [] (by decide)
  exact ⟨h.1, h.2.trans (by rfl)⟩

end Stern
